import Mathlib

/-!
Verification development for the verification-gated profile-mutation flow of
the logto repository slice: the new profile router
(packages/core/src/routes/profile/index.ts) and the session profile router
(packages/core/src/routes/session/profile.ts), embedded shallowly.
Collaborators outside the excerpt (user store, verification record store,
collision checker, session health check, password hashing, social connector)
are modelled from the specification, as marked on each definition.
-/

set_option autoImplicit false

namespace Logto

/-! ## JSON-object (string-keyed association list) operations

These mirror the JavaScript object semantics used by the handlers:
property lookup, rest-destructuring (key removal), object spread with a
computed key, and jsonb top-level merge. -/

def getKey {α : Type} : List (String × α) → String → Option α
  | [], _ => none
  | p :: rest, k => if p.1 == k then some p.2 else getKey rest k

def eraseKey {α : Type} : List (String × α) → String → List (String × α)
  | [], _ => []
  | p :: rest, k => if p.1 == k then eraseKey rest k else p :: eraseKey rest k

/-- Object spread with a computed key, as in the TS expression
writing all previous entries and then the new binding for key k. -/
def setKey {α : Type} (l : List (String × α)) (k : String) (v : α) : List (String × α) :=
  eraseKey l k ++ [(k, v)]

/-- Top-level jsonb merge: entries of the update shadow entries of the base,
entries of the base absent from the update are kept. -/
def mergeObj {α : Type} : List (String × α) → List (String × α) → List (String × α)
  | [], n => n
  | p :: rest, n => if (getKey n p.1).isSome then mergeObj rest n else p :: mergeObj rest n

theorem getKey_append_of_some {α : Type} {l1 : List (String × α)} (l2 : List (String × α))
    {k : String} {v : α} (h : getKey l1 k = some v) : getKey (l1 ++ l2) k = some v := by
  induction l1 with
  | nil => simp [getKey] at h
  | cons p rest ih =>
    rw [List.cons_append]
    rw [getKey] at h ⊢
    cases hk : (p.1 == k) with
    | true => simpa [hk] using h
    | false =>
      rw [hk] at h
      simp only [Bool.false_eq_true, if_false]
      exact ih h

theorem getKey_append_of_none {α : Type} {l1 : List (String × α)} (l2 : List (String × α))
    {k : String} (h : getKey l1 k = none) : getKey (l1 ++ l2) k = getKey l2 k := by
  induction l1 with
  | nil => simp [getKey]
  | cons p rest ih =>
    rw [List.cons_append]
    rw [getKey] at h ⊢
    cases hk : (p.1 == k) with
    | true => simp [hk] at h
    | false =>
      rw [hk] at h
      simp only [Bool.false_eq_true, if_false]
      exact ih h

theorem getKey_eraseKey_self {α : Type} (l : List (String × α)) (k : String) :
    getKey (eraseKey l k) k = none := by
  induction l with
  | nil => simp [eraseKey, getKey]
  | cons p rest ih =>
    rw [eraseKey]
    cases hk : (p.1 == k) with
    | true => simpa [hk] using ih
    | false => simp [getKey, hk, ih]

theorem getKey_eraseKey_ne {α : Type} (l : List (String × α)) {k k2 : String}
    (h : k2 ≠ k) : getKey (eraseKey l k) k2 = getKey l k2 := by
  induction l with
  | nil => simp [eraseKey]
  | cons p rest ih =>
    rw [eraseKey, getKey]
    cases hk : (p.1 == k) with
    | true =>
      have hpk : p.1 = k := by simpa using hk
      have hne : (p.1 == k2) = false := by
        simp [hpk]
        intro hc
        exact h hc.symm
      rw [if_pos rfl, ih, hne]
      simp
    | false => simp [getKey, hk, ih]

theorem getKey_setKey_self {α : Type} (l : List (String × α)) (k : String) (v : α) :
    getKey (setKey l k v) k = some v := by
  rw [setKey, getKey_append_of_none _ (getKey_eraseKey_self l k)]
  simp [getKey]

theorem getKey_setKey_ne {α : Type} (l : List (String × α)) {k k2 : String} (v : α)
    (h : k2 ≠ k) : getKey (setKey l k v) k2 = getKey l k2 := by
  rw [setKey]
  cases hv : getKey (eraseKey l k) k2 with
  | none =>
    rw [getKey_append_of_none _ hv]
    rw [getKey_eraseKey_ne l h] at hv
    simp [getKey, hv]
    intro hc
    exact absurd hc.symm h
  | some w =>
    rw [getKey_append_of_some _ hv]
    rw [getKey_eraseKey_ne l h] at hv
    exact hv.symm

theorem getKey_mergeObj_of_some {α : Type} {b n : List (String × α)} {k : String} {v : α}
    (h : getKey n k = some v) : getKey (mergeObj b n) k = some v := by
  induction b with
  | nil => simpa [mergeObj] using h
  | cons p rest ih =>
    rw [mergeObj]
    cases hp : (getKey n p.1).isSome with
    | true => simpa [hp] using ih
    | false =>
      simp only [Bool.false_eq_true, if_false]
      rw [getKey]
      cases hk : (p.1 == k) with
      | true =>
        have hpk : p.1 = k := by simpa using hk
        rw [hpk, h] at hp
        simp at hp
      | false => simpa [hk] using ih

theorem getKey_mergeObj_of_none {α : Type} {b n : List (String × α)} {k : String}
    (h : getKey n k = none) : getKey (mergeObj b n) k = getKey b k := by
  induction b with
  | nil => simpa [mergeObj] using h
  | cons p rest ih =>
    rw [mergeObj]
    cases hp : (getKey n p.1).isSome with
    | true =>
      rw [if_pos rfl, ih, getKey]
      cases hk : (p.1 == k) with
      | true =>
        have hpk : p.1 = k := by simpa using hk
        rw [hpk, h] at hp
        simp at hp
      | false => simp
    | false =>
      simp only [Bool.false_eq_true, if_false]
      rw [getKey, getKey]
      cases hk : (p.1 == k) with
      | true => simp [hk]
      | false => simpa [hk] using ih

/-! ## Data model -/

/-- Social user info returned by the social connector exchange
(getUserInfoByAuthCode). Only the id is inspected by the handlers; the rest
of the payload is kept opaque as a JSON object. -/
structure SocialUserInfo where
  id : String
  rawData : List (String × String)
deriving DecidableEq, Repr

/-- One entry of the identities map: the TS object written by the identity
linking route, with the provider-side user id and the full fetched info. -/
structure Identity where
  userId : String
  details : SocialUserInfo
deriving DecidableEq, Repr

/-- Modelled from the spec: the configured password hashing algorithm
(argon2 behind encryptUserPassword, outside the excerpt). A hash is
represented by the password it was derived from plus the salt drawn at
hashing time, so rehashing the same password yields a distinct hash that
still verifies against the password. -/
structure PasswordHash where
  password : String
  salt : Nat
deriving DecidableEq, Repr

/-- Modelled from the spec: argon2 verification succeeds exactly when the
hash was derived from the given password. -/
def argon2Verify (password : String) (hash : PasswordHash) : Bool :=
  hash.password = password

structure EncryptedPassword where
  passwordEncrypted : PasswordHash
  passwordEncryptionMethod : String
deriving DecidableEq, Repr

/-- Modelled from the spec: encryptUserPassword (outside the excerpt) hashes
with the configured algorithm, drawing a fresh salt (passed explicitly
here), and tags the encryption method. -/
def encryptUserPassword (salt : Nat) (password : String) : EncryptedPassword :=
  { passwordEncrypted := { password := password, salt := salt },
    passwordEncryptionMethod := "Argon2i" }

/-- User record, per the data model: opaque id, optional unique identifiers,
password hash and method tag, simple profile fields, jsonb profile and
custom data objects, and the identities map keyed by provider target. -/
structure User where
  id : String
  username : Option String
  primaryEmail : Option String
  primaryPhone : Option String
  passwordEncrypted : Option PasswordHash
  passwordEncryptionMethod : Option String
  name : Option String
  avatar : Option String
  profile : List (String × String)
  customData : List (String × String)
  identities : List (String × Identity)
deriving DecidableEq, Repr

/-- Verification record, per the data model: id, owning subject, proven
target identifier, consumed flag, expiry. -/
structure VerificationRecord where
  id : String
  userId : String
  target : Option String
  consumed : Bool
  expiresAt : Nat
deriving DecidableEq, Repr

/-- Per-request auth context of the new profile router (koa-auth): a
non-null subject id and the granted scopes. -/
structure AuthContext where
  id : String
  scopes : List String
deriving DecidableEq, Repr

/-- Interaction session of the session router: nullable subject id
(absence means unauthenticated) and the time the session was last
verified, used by the session health check. -/
structure Session where
  accountId : Option String
  lastVerifiedAt : Option Nat
deriving DecidableEq, Repr

/-- A connector as far as the identity routes read it: id and the
provider target from its metadata. -/
structure Connector where
  id : String
  target : String
deriving DecidableEq, Repr

def UserScopeProfile : String := "profile"

def UserScopeAddress : String := "address"

def dataHookUserUpdated : String := "User.Data.Updated"

/-! ## Error taxonomy

Constructors carry the error codes and statuses visible at the throw sites
in the routes; statuses of errors raised inside collaborators outside the
excerpt follow the spec's HTTP table. -/

inductive AppError where
  | unauthorized
  | verificationRecordNotFound
  | identifierExists
  | samePassword
  | emailNotExists
  | phoneNotExists
  | identityNotExists
  | connectorNotFound
  | upstreamSocialError
  | entityNotFound
deriving DecidableEq, Repr

def AppError.code : AppError → String
  | .unauthorized => "auth.unauthorized"
  | .verificationRecordNotFound => "verification_record.not_found"
  | .identifierExists => "user.identifier_already_in_use"
  | .samePassword => "user.same_password"
  | .emailNotExists => "user.email_not_exists"
  | .phoneNotExists => "user.phone_not_exists"
  | .identityNotExists => "user.identity_not_exists"
  | .connectorNotFound => "entity.not_found"
  | .upstreamSocialError => "session.invalid_connector_id"
  | .entityNotFound => "entity.not_found"

def AppError.status : AppError → Nat
  | .unauthorized => 401
  | .verificationRecordNotFound => 400
  | .identifierExists => 422
  | .samePassword => 422
  | .emailNotExists => 422
  | .phoneNotExists => 422
  | .identityNotExists => 404
  | .connectorNotFound => 404
  | .upstreamSocialError => 401
  | .entityNotFound => 404

inductive HandlerResult where
  | ok (status : Nat)
  | err (e : AppError)
deriving DecidableEq, Repr

/-- Accesses to the user store performed by a handler, in order. -/
inductive StoreAccess where
  | readUser (id : String)
  | readStore
  | writeUser (id : String)
deriving DecidableEq, Repr

/-! ## User store -/

abbrev UserStore := List User

/-- Modelled from the spec: the user store is a key-value store of user
records addressable by opaque id (findUserById, outside the excerpt). -/
def findUser (s : UserStore) (id : String) : Option User :=
  s.find? (fun u => u.id == id)

def updateStore (s : UserStore) (id : String) (f : User → User) : UserStore :=
  s.map (fun u => if u.id == id then f u else u)

/-- jsonb column write mode of updateUserById: the default merges the
submitted object into the stored one at the top level; the explicit
replace mode overwrites the column. -/
inductive JsonbMode where
  | merge
  | replace
deriving DecidableEq, Repr

/-- A partial update as passed to updateUserById. An outer none means the
key was undefined and is dropped from the update; some none sets a
nullable column to null. -/
structure UserUpdate where
  name : Option (Option String) := none
  avatar : Option (Option String) := none
  username : Option (Option String) := none
  primaryEmail : Option (Option String) := none
  primaryPhone : Option (Option String) := none
  passwordEncrypted : Option PasswordHash := none
  passwordEncryptionMethod : Option String := none
  profile : Option (List (String × String)) := none
  customData : Option (List (String × String)) := none
  identities : Option (List (String × Identity)) := none
deriving DecidableEq, Repr

def applyOpt {α : Type} (cur : α) (upd : Option α) : α :=
  match upd with
  | none => cur
  | some v => v

def applyJsonb {α : Type} (mode : JsonbMode) (cur : List (String × α))
    (upd : Option (List (String × α))) : List (String × α) :=
  match upd with
  | none => cur
  | some u =>
    match mode with
    | .merge => mergeObj cur u
    | .replace => u

def applyUserUpdate (mode : JsonbMode) (u : User) (upd : UserUpdate) : User :=
  { u with
    name := applyOpt u.name upd.name
    avatar := applyOpt u.avatar upd.avatar
    username := applyOpt u.username upd.username
    primaryEmail := applyOpt u.primaryEmail upd.primaryEmail
    primaryPhone := applyOpt u.primaryPhone upd.primaryPhone
    passwordEncrypted := applyOpt u.passwordEncrypted (upd.passwordEncrypted.map some)
    passwordEncryptionMethod :=
      applyOpt u.passwordEncryptionMethod (upd.passwordEncryptionMethod.map some)
    profile := applyJsonb mode u.profile upd.profile
    customData := applyJsonb mode u.customData upd.customData
    identities := applyJsonb mode u.identities upd.identities }

/-- Modelled from the spec: updateUserById (outside the excerpt) applies a
partial update to the addressed record, merging jsonb columns at the top
level unless replace mode is requested, and returns the updated record;
it fails when the id addresses no record. -/
def updateUserById (s : UserStore) (id : String) (upd : UserUpdate) (mode : JsonbMode) :
    Option (User × UserStore) :=
  (findUser s id).map (fun u =>
    let u2 := applyUserUpdate mode u upd
    (u2, updateStore s id (fun _ => u2)))

/-- Modelled from the spec: deleteUserIdentity (outside the excerpt)
removes the entry for the given target from the user's identities map. -/
def deleteUserIdentity (s : UserStore) (uid target : String) : UserStore :=
  updateStore s uid (fun u => { u with identities := eraseKey u.identities target })

/-! ## Modelled collaborators -/

/-- Candidate unique identifier fields handed to the collision checker. -/
structure CandidateFields where
  username : Option String := none
  primaryEmail : Option String := none
  primaryPhone : Option String := none
deriving DecidableEq, Repr

def ownsCandidate (c : CandidateFields) (u : User) : Bool :=
  (match c.username with
   | some v => u.username == some v
   | none => false) ||
  (match c.primaryEmail with
   | some v => u.primaryEmail == some v
   | none => false) ||
  (match c.primaryPhone with
   | some v => u.primaryPhone == some v
   | none => false)

/-- Whether a stored user is the excluded subject of a collision check. -/
def isExcluded (excludeId : Option String) (u : User) : Bool :=
  match excludeId with
  | some ex => u.id == ex
  | none => false

/-- Modelled from the spec: the identifier collision checker (outside the
excerpt) looks up each non-null candidate field against the store and
fails on any match belonging to a subject other than excludeSubjectId;
returns true when the check passes. -/
def checkIdentifierCollision (s : UserStore) (c : CandidateFields)
    (excludeId : Option String) : Bool :=
  s.all (fun u => isExcluded excludeId u || !(ownsCandidate c u))

/-- Modelled from the spec: checkSignUpIdentifierCollision (outside the
excerpt) has the same contract as the identifier collision checker. -/
def checkSignUpIdentifierCollision (s : UserStore) (c : CandidateFields)
    (excludeId : Option String) : Bool :=
  checkIdentifierCollision s c excludeId

/-- Modelled from the spec: resolve(recordId, subjectId) of the
verification record store finds the record by id for the given owning
subject. -/
def buildUserVerificationRecordById (records : List VerificationRecord)
    (userId recordId : String) : Option VerificationRecord :=
  records.find? (fun r => r.id == recordId && r.userId == userId)

/-- Modelled from the spec: the isVerified check of a resolved record is
validity per the record store contract: unconsumed, unexpired, and, when a
target identifier is requested, scoped to that target. -/
def recordIsValid (r : VerificationRecord) (now : Nat)
    (requestedTarget : Option String) : Bool :=
  !r.consumed && decide (now < r.expiresAt) &&
    (match requestedTarget with
     | none => true
     | some t => r.target == some t)

/-- Modelled from the spec: checkSessionHealth (outside the excerpt)
yields the subject id when the session is authenticated and was verified
within the timeout, and nothing otherwise. -/
def checkSessionHealth (s : Session) (now timeout : Nat) : Option String :=
  match s.accountId with
  | none => none
  | some uid =>
    match s.lastVerifiedAt with
    | none => none
    | some t => if now ≤ t + timeout then some uid else none

def getLogtoConnectorById (connectors : List Connector) (id : String) : Option Connector :=
  connectors.find? (fun c => c.id == id)

/-! ## Handler plumbing -/

/-- Persistent state a request can touch: the user store and the
verification record store. -/
structure Db where
  users : UserStore
  records : List VerificationRecord
deriving DecidableEq, Repr

/-- Outcome of one request: result, resulting state, emitted data-hook
events (name and payload user), and the user-store accesses performed. -/
structure RouteOut where
  result : HandlerResult
  db : Db
  events : List (String × User)
  accesses : List StoreAccess
deriving DecidableEq, Repr

def errOut (db : Db) (e : AppError) (accesses : List StoreAccess) : RouteOut :=
  { result := .err e, db := db, events := [], accesses := accesses }

def unauthorizedOut (db : Db) : RouteOut :=
  errOut db .unauthorized []

/-! ## New profile router (packages/core/src/routes/profile/index.ts) -/

inductive RouteSpec where
  | get (path : String)
  | patch (path : String)
  | post (path : String)
  | del (path : String)
deriving DecidableEq, Repr

/-- Routes registered by profileRoutes of the new profile router: it
returns before registering anything unless the dev-features flag is
enabled. -/
def profileRoutes (isDevFeaturesEnabled : Bool) : List RouteSpec :=
  if !isDevFeaturesEnabled then []
  else [.get "/profile", .patch "/profile", .post "/profile/password"]

/-- GET /profile: reads the scoped profile projection of the caller. -/
def getProfile (db : Db) (auth : AuthContext) : RouteOut :=
  { result := .ok 200, db := db, events := [], accesses := [.readUser auth.id] }

/-- Body of PATCH /profile after the koa guard: name and avatar are
nullable and optional, username and profile are optional. -/
structure PatchProfileBody where
  name : Option (Option String) := none
  avatar : Option (Option String) := none
  username : Option String := none
  profile : Option (List (String × String)) := none
deriving DecidableEq, Repr

/-- The username collision step of PATCH /profile: skipped when no
username is submitted, otherwise the collision check with the caller
excluded. -/
def usernamePass (s : UserStore) (uid : String) (username : Option String) : Bool :=
  match username with
  | none => true
  | some un => checkIdentifierCollision s { username := some un } (some uid)

def usernameAccesses (username : Option String) : List StoreAccess :=
  match username with
  | none => []
  | some _ => [.readStore]

/-- The update object built by PATCH /profile: name, avatar, username as
submitted, and, when a profile object is submitted, that object with
address removed unless the caller holds the address scope. -/
def buildPatchProfileUpdate (scopes : List String) (body : PatchProfileBody) : UserUpdate :=
  { name := body.name
    avatar := body.avatar
    username := body.username.map some
    profile := body.profile.map (fun p =>
      if scopes.contains UserScopeAddress then
        match getKey p "address" with
        | some a => setKey (eraseKey p "address") "address" a
        | none => eraseKey p "address"
      else eraseKey p "address") }

/-- PATCH /profile: requires the profile scope, runs the username
collision check when a username is submitted, applies the update, emits
the data hook, and responds with the scoped profile. -/
def patchProfile (db : Db) (auth : AuthContext) (body : PatchProfileBody) : RouteOut :=
  if !(auth.scopes.contains UserScopeProfile) then unauthorizedOut db
  else if !(usernamePass db.users auth.id body.username) then
    errOut db .identifierExists (usernameAccesses body.username)
  else
    match updateUserById db.users auth.id (buildPatchProfileUpdate auth.scopes body) .merge with
    | none =>
      errOut db .entityNotFound (usernameAccesses body.username ++ [.writeUser auth.id])
    | some (updatedUser, users2) =>
      { result := .ok 200
        db := { db with users := users2 }
        events := [(dataHookUserUpdated, updatedUser)]
        accesses := usernameAccesses body.username ++ [.writeUser auth.id, .readUser auth.id] }

/-- POST /profile/password: resolves the verification record for the
caller, asserts it is verified, encrypts the new password, writes it,
and emits the data hook. The verification record store is not written. -/
def postProfilePassword (db : Db) (auth : AuthContext) (now salt : Nat)
    (password verificationRecordId : String) : RouteOut :=
  match buildUserVerificationRecordById db.records auth.id verificationRecordId with
  | none => errOut db .verificationRecordNotFound []
  | some r =>
    if !(recordIsValid r now none) then errOut db .verificationRecordNotFound []
    else
      match updateUserById db.users auth.id
          { passwordEncrypted := some (encryptUserPassword salt password).passwordEncrypted
            passwordEncryptionMethod :=
              some (encryptUserPassword salt password).passwordEncryptionMethod } .merge with
      | none => errOut db .entityNotFound [.writeUser auth.id]
      | some (updatedUser, users2) =>
        { result := .ok 204
          db := { db with users := users2 }
          events := [(dataHookUserUpdated, updatedUser)]
          accesses := [.writeUser auth.id] }

/-! ## Session profile router (packages/core/src/routes/session/profile.ts) -/

/-- GET /session/profile: session subject required, then the user record
is read and projected. -/
def getSessionProfile (db : Db) (session : Session) : RouteOut :=
  match session.accountId with
  | none => unauthorizedOut db
  | some uid =>
    match findUser db.users uid with
    | none => errOut db .entityNotFound [.readUser uid]
    | some _ =>
      { result := .ok 200, db := db, events := [], accesses := [.readUser uid] }

structure SessionPatchBody where
  name : Option (Option String) := none
  avatar : Option (Option String) := none
  customData : Option (List (String × String)) := none
deriving DecidableEq, Repr

/-- PATCH /session/profile: session subject required; writes name, avatar
and custom data with no verification gate and no event. -/
def patchSessionProfile (db : Db) (session : Session) (body : SessionPatchBody) : RouteOut :=
  match session.accountId with
  | none => unauthorizedOut db
  | some uid =>
    match updateUserById db.users uid
        { name := body.name, avatar := body.avatar, customData := body.customData } .merge with
    | none => errOut db .entityNotFound [.writeUser uid]
    | some (_, users2) =>
      { result := .ok 204, db := { db with users := users2 }, events := []
        accesses := [.writeUser uid] }

/-- PATCH /session/profile/username: healthy session required; collision
check excluding the caller, then the username is written in replace
mode. -/
def patchUsername (db : Db) (session : Session) (now timeout : Nat)
    (username : String) : RouteOut :=
  match checkSessionHealth session now timeout with
  | none => unauthorizedOut db
  | some uid =>
    if !(checkSignUpIdentifierCollision db.users { username := some username } (some uid)) then
      errOut db .identifierExists [.readStore]
    else
      match updateUserById db.users uid { username := some (some username) } .replace with
      | none => errOut db .entityNotFound [.readStore, .writeUser uid]
      | some (_, users2) =>
        { result := .ok 200, db := { db with users := users2 }, events := []
          accesses := [.readStore, .writeUser uid] }

/-- PATCH /session/profile/password: healthy session required; rejects a
new password that verifies against the stored hash, then encrypts and
writes. -/
def patchPassword (db : Db) (session : Session) (now timeout salt : Nat)
    (password : String) : RouteOut :=
  match checkSessionHealth session now timeout with
  | none => unauthorizedOut db
  | some uid =>
    match findUser db.users uid with
    | none => errOut db .entityNotFound [.readUser uid]
    | some user =>
      if (match user.passwordEncrypted with
          | none => false
          | some h => argon2Verify password h) then
        errOut db .samePassword [.readUser uid]
      else
        match updateUserById db.users uid
            { passwordEncrypted := some (encryptUserPassword salt password).passwordEncrypted
              passwordEncryptionMethod :=
                some (encryptUserPassword salt password).passwordEncryptionMethod } .merge with
        | none => errOut db .entityNotFound [.readUser uid, .writeUser uid]
        | some (_, users2) =>
          { result := .ok 204, db := { db with users := users2 }, events := []
            accesses := [.readUser uid, .writeUser uid] }

/-- PATCH /session/profile/email: healthy session required; collision
check with no exclusion, then the primary email is written. -/
def patchEmail (db : Db) (session : Session) (now timeout : Nat)
    (primaryEmail : String) : RouteOut :=
  match checkSessionHealth session now timeout with
  | none => unauthorizedOut db
  | some uid =>
    if !(checkSignUpIdentifierCollision db.users { primaryEmail := some primaryEmail } none) then
      errOut db .identifierExists [.readStore]
    else
      match updateUserById db.users uid { primaryEmail := some (some primaryEmail) } .merge with
      | none => errOut db .entityNotFound [.readStore, .writeUser uid]
      | some (_, users2) =>
        { result := .ok 204, db := { db with users := users2 }, events := []
          accesses := [.readStore, .writeUser uid] }

/-- DELETE /session/profile/email: healthy session required; fails when no
primary email is set, otherwise clears it. -/
def deleteEmail (db : Db) (session : Session) (now timeout : Nat) : RouteOut :=
  match checkSessionHealth session now timeout with
  | none => unauthorizedOut db
  | some uid =>
    match findUser db.users uid with
    | none => errOut db .entityNotFound [.readUser uid]
    | some user =>
      match user.primaryEmail with
      | none => errOut db .emailNotExists [.readUser uid]
      | some _ =>
        match updateUserById db.users uid { primaryEmail := some none } .merge with
        | none => errOut db .entityNotFound [.readUser uid, .writeUser uid]
        | some (_, users2) =>
          { result := .ok 204, db := { db with users := users2 }, events := []
            accesses := [.readUser uid, .writeUser uid] }

/-- PATCH /session/profile/phone: healthy session required; collision
check with no exclusion, then the primary phone is written. -/
def patchPhone (db : Db) (session : Session) (now timeout : Nat)
    (primaryPhone : String) : RouteOut :=
  match checkSessionHealth session now timeout with
  | none => unauthorizedOut db
  | some uid =>
    if !(checkSignUpIdentifierCollision db.users { primaryPhone := some primaryPhone } none) then
      errOut db .identifierExists [.readStore]
    else
      match updateUserById db.users uid { primaryPhone := some (some primaryPhone) } .merge with
      | none => errOut db .entityNotFound [.readStore, .writeUser uid]
      | some (_, users2) =>
        { result := .ok 204, db := { db with users := users2 }, events := []
          accesses := [.readStore, .writeUser uid] }

/-- DELETE /session/profile/phone: healthy session required; fails when no
primary phone is set, otherwise clears it. -/
def deletePhone (db : Db) (session : Session) (now timeout : Nat) : RouteOut :=
  match checkSessionHealth session now timeout with
  | none => unauthorizedOut db
  | some uid =>
    match findUser db.users uid with
    | none => errOut db .entityNotFound [.readUser uid]
    | some user =>
      match user.primaryPhone with
      | none => errOut db .phoneNotExists [.readUser uid]
      | some _ =>
        match updateUserById db.users uid { primaryPhone := some none } .merge with
        | none => errOut db .entityNotFound [.readUser uid, .writeUser uid]
        | some (_, users2) =>
          { result := .ok 204, db := { db with users := users2 }, events := []
            accesses := [.readUser uid, .writeUser uid] }

/-- PATCH /session/profile/identities: healthy session required; looks up
the connector target, exchanges the auth code for social user info
(modelled as an oracle, none meaning the exchange errored), then spreads
the stored identities with the target bound to the fetched info. -/
def patchIdentities (db : Db) (connectors : List Connector)
    (socialResult : Option SocialUserInfo) (session : Session) (now timeout : Nat)
    (connectorId : String) : RouteOut :=
  match checkSessionHealth session now timeout with
  | none => unauthorizedOut db
  | some uid =>
    match getLogtoConnectorById connectors connectorId with
    | none => errOut db .connectorNotFound []
    | some c =>
      match socialResult with
      | none => errOut db .upstreamSocialError []
      | some info =>
        match findUser db.users uid with
        | none => errOut db .entityNotFound [.readUser uid]
        | some user =>
          match updateUserById db.users uid
              { identities := some (setKey user.identities c.target
                  { userId := info.id, details := info }) } .merge with
          | none => errOut db .entityNotFound [.readUser uid, .writeUser uid]
          | some (_, users2) =>
            { result := .ok 204, db := { db with users := users2 }, events := []
              accesses := [.readUser uid, .writeUser uid] }

/-- DELETE /session/profile/identities/:target: session subject required;
fails when the target is not linked, otherwise deletes the identity
entry. -/
def deleteIdentityRoute (db : Db) (session : Session) (target : String) : RouteOut :=
  match session.accountId with
  | none => unauthorizedOut db
  | some uid =>
    match findUser db.users uid with
    | none => errOut db .entityNotFound [.readUser uid]
    | some user =>
      if !(getKey user.identities target).isSome then
        errOut db .identityNotExists [.readUser uid]
      else
        { result := .ok 204
          db := { db with users := deleteUserIdentity db.users uid target }
          events := []
          accesses := [.readUser uid, .writeUser uid] }

/-! ## Store lemmas -/

theorem applyUserUpdate_id (mode : JsonbMode) (u : User) (upd : UserUpdate) :
    (applyUserUpdate mode u upd).id = u.id := rfl

theorem findUser_updateStore_self (s : UserStore) (id : String) (f : User → User)
    (hf : ∀ v, (v.id == id) = true → ((f v).id == id) = true) :
    findUser (updateStore s id f) id = (findUser s id).map f := by
  induction s with
  | nil => rfl
  | cons u rest ih =>
    cases hu : (u.id == id) with
    | true =>
      simp [findUser, updateStore, List.find?, hu, hf u hu]
    | false =>
      have hne : ¬ ((u.id == id) = true) := by simp [hu]
      have hstep : updateStore (u :: rest) id f = u :: updateStore rest id f := by
        simp only [updateStore, List.map_cons, if_neg hne]
      rw [hstep]
      rw [findUser, findUser] at ih ⊢
      simp [List.find?_cons, hu, ih]

theorem updateUserById_some {s : UserStore} {id : String} {upd : UserUpdate}
    {mode : JsonbMode} {u2 : User} {s2 : UserStore}
    (h : updateUserById s id upd mode = some (u2, s2)) :
    ∃ u, findUser s id = some u ∧ u2 = applyUserUpdate mode u upd ∧
      s2 = updateStore s id (fun _ => applyUserUpdate mode u upd) := by
  rw [updateUserById] at h
  cases hf : findUser s id with
  | none => rw [hf] at h; simp at h
  | some u =>
    rw [hf] at h
    simp only [Option.map_some'] at h
    have h1 := congrArg Prod.fst (Option.some.inj h)
    have h2 := congrArg Prod.snd (Option.some.inj h)
    exact ⟨u, rfl, h1.symm, h2.symm⟩

theorem findUser_eq_some_id {s : UserStore} {id : String} {u : User}
    (h : findUser s id = some u) : u.id = id := by
  have := List.find?_some h
  simpa using this

theorem findUser_after_update {s : UserStore} {id : String} {upd : UserUpdate}
    {mode : JsonbMode} {u2 : User} {s2 : UserStore}
    (h : updateUserById s id upd mode = some (u2, s2)) :
    findUser s2 id = some u2 := by
  rcases updateUserById_some h with ⟨u, hf, hu2, hs2⟩
  have happ : (applyUserUpdate mode u upd).id = id := by
    rw [applyUserUpdate_id]
    exact findUser_eq_some_id hf
  have hconst : ∀ v : User, (v.id == id) = true →
      (((fun _ => applyUserUpdate mode u upd) v).id == id) = true := by
    intro v hv
    simp [happ]
  rw [hs2, findUser_updateStore_self s id _ hconst, hf]
  simp [hu2]

theorem mem_updateStore {s : UserStore} {id : String} {f : User → User} {v : User}
    (hv : v ∈ updateStore s id f) :
    (∃ u, u ∈ s ∧ (u.id == id) = true ∧ v = f u) ∨ (v ∈ s ∧ (v.id == id) = false) := by
  rw [updateStore] at hv
  rcases List.mem_map.mp hv with ⟨u, hu, he⟩
  cases hc : (u.id == id) with
  | true =>
    left
    exact ⟨u, hu, hc, by rw [← he, if_pos hc]⟩
  | false =>
    right
    have hveq : v = u := by rw [← he, if_neg (by simp [hc])]
    rw [hveq]
    exact ⟨hu, hc⟩

/-! ## Collision checker lemmas -/

theorem collision_pass_sound {s : UserStore} {c : CandidateFields} {excludeId : Option String}
    (h : checkIdentifierCollision s c excludeId = true) :
    ∀ u ∈ s, isExcluded excludeId u = false → ownsCandidate c u = false := by
  intro u hu hex
  have hall := (List.all_eq_true.mp h) u hu
  rw [hex] at hall
  simpa using hall

theorem collision_pass_intro {s : UserStore} {c : CandidateFields} {excludeId : Option String}
    (h : ∀ u ∈ s, isExcluded excludeId u = false → ownsCandidate c u = false) :
    checkIdentifierCollision s c excludeId = true := by
  rw [checkIdentifierCollision, List.all_eq_true]
  intro u hu
  cases hex : isExcluded excludeId u with
  | true => simp [hex]
  | false => simp [hex, h u hu hex]

theorem collision_fails_of_owner {s : UserStore} {c : CandidateFields}
    {excludeId : Option String} {v : User} (hv : v ∈ s)
    (hex : isExcluded excludeId v = false)
    (hown : ownsCandidate c v = true) :
    checkIdentifierCollision s c excludeId = false := by
  cases hc : checkIdentifierCollision s c excludeId with
  | false => rfl
  | true =>
    have := collision_pass_sound hc v hv hex
    rw [hown] at this
    exact absurd this (by simp)

/-! ## Shared concrete environment for witnesses and counterexamples -/

def aliceHash : PasswordHash := { password := "pw1", salt := 0 }

def alice : User :=
  { id := "alice", username := some "alice", primaryEmail := some "a@x.io"
    primaryPhone := some "111", passwordEncrypted := some aliceHash
    passwordEncryptionMethod := some "Argon2i", name := some "Alice", avatar := none
    profile := [("gender", "x"), ("address", "Street 1")], customData := []
    identities := [("github", { userId := "g1", details := { id := "g1", rawData := [] } })] }

def bob : User :=
  { id := "bob", username := some "bob", primaryEmail := some "b@x.io"
    primaryPhone := none, passwordEncrypted := none, passwordEncryptionMethod := none
    name := none, avatar := none, profile := [], customData := [], identities := [] }

def carol : User :=
  { id := "carol", username := none, primaryEmail := none, primaryPhone := none
    passwordEncrypted := some { password := "pw1", salt := 3 }
    passwordEncryptionMethod := some "Argon2i", name := none, avatar := none
    profile := [], customData := [], identities := [] }

def record1 : VerificationRecord :=
  { id := "r1", userId := "alice", target := none, consumed := false, expiresAt := 100 }

def recordCarol : VerificationRecord :=
  { id := "r2", userId := "carol", target := none, consumed := false, expiresAt := 100 }

def exDb : Db := { users := [alice, bob, carol], records := [record1, recordCarol] }

def aliceAuth : AuthContext := { id := "alice", scopes := [UserScopeProfile] }

def carolAuth : AuthContext := { id := "carol", scopes := [UserScopeProfile] }

def aliceSession : Session := { accountId := some "alice", lastVerifiedAt := some 0 }

def carolSession : Session := { accountId := some "carol", lastVerifiedAt := some 0 }

def noSession : Session := { accountId := none, lastVerifiedAt := none }

/-! ## Claims -/

/-- Claim C10: when the dev-features environment flag is disabled, the
profile router registers no routes at all; GET /profile, PATCH /profile
and POST /profile/password are registered only when the flag is
enabled. -/
theorem c10_dev_features_gate :
    profileRoutes false = [] ∧
    profileRoutes true = [.get "/profile", .patch "/profile", .post "/profile/password"] :=
  ⟨rfl, rfl⟩

/-- Claim C6: deleting an absent primary email fails user.email_not_exists
with status 422, deleting an absent primary phone fails
user.phone_not_exists with status 422, and unlinking a target that is not
linked fails user.identity_not_exists with status 404; in all three cases
the state is left unchanged (the errOut equality fixes the resulting db to
the input db). -/
theorem c6_delete_absent_fails (db : Db) (session : Session) (now timeout : Nat)
    (uid : String) (u : User)
    (hh : checkSessionHealth session now timeout = some uid)
    (hacc : session.accountId = some uid)
    (hfind : findUser db.users uid = some u) :
    (u.primaryEmail = none →
      deleteEmail db session now timeout = errOut db .emailNotExists [.readUser uid] ∧
      AppError.emailNotExists.status = 422 ∧
      AppError.emailNotExists.code = "user.email_not_exists")
  ∧ (u.primaryPhone = none →
      deletePhone db session now timeout = errOut db .phoneNotExists [.readUser uid] ∧
      AppError.phoneNotExists.status = 422 ∧
      AppError.phoneNotExists.code = "user.phone_not_exists")
  ∧ (∀ target, getKey u.identities target = none →
      deleteIdentityRoute db session target = errOut db .identityNotExists [.readUser uid] ∧
      AppError.identityNotExists.status = 404 ∧
      AppError.identityNotExists.code = "user.identity_not_exists") := by
  refine ⟨?_, ?_, ?_⟩
  · intro hmail
    refine ⟨?_, rfl, rfl⟩
    simp [deleteEmail, hh, hfind, hmail]
  · intro hphone
    refine ⟨?_, rfl, rfl⟩
    simp [deletePhone, hh, hfind, hphone]
  · intro target hid
    refine ⟨?_, rfl, rfl⟩
    simp [deleteIdentityRoute, hacc, hfind, hid]

/-- Witness for C6: Carol has no primary email, no primary phone, and no
linked identities; all three deletions fail with the respective errors and
leave the state unchanged. -/
theorem c6_delete_absent_fails_witness :
    deleteEmail exDb carolSession 0 10 = errOut exDb .emailNotExists [.readUser "carol"] ∧
    deletePhone exDb carolSession 0 10 = errOut exDb .phoneNotExists [.readUser "carol"] ∧
    deleteIdentityRoute exDb carolSession "github" =
      errOut exDb .identityNotExists [.readUser "carol"] := by
  have h := c6_delete_absent_fails exDb carolSession 0 10 "carol" carol
    (by decide) (by decide) (by decide)
  exact ⟨(h.1 (by decide)).1, (h.2.1 (by decide)).1, (h.2.2 "github" (by decide)).1⟩

/-- Claim C8: every session profile operation, read or mutation, invoked
with no subject id in the session fails with auth.unauthorized (401) and
performs no user-store access and no state change (unauthorizedOut fixes
db to the input, events to [] and accesses to []). -/
theorem c8_unauthenticated_rejected (db : Db) (session : Session) (now timeout salt : Nat)
    (body : SessionPatchBody) (un pw em ph cid target : String)
    (connectors : List Connector) (social : Option SocialUserInfo)
    (h : session.accountId = none) :
    getSessionProfile db session = unauthorizedOut db ∧
    patchSessionProfile db session body = unauthorizedOut db ∧
    patchUsername db session now timeout un = unauthorizedOut db ∧
    patchPassword db session now timeout salt pw = unauthorizedOut db ∧
    patchEmail db session now timeout em = unauthorizedOut db ∧
    deleteEmail db session now timeout = unauthorizedOut db ∧
    patchPhone db session now timeout ph = unauthorizedOut db ∧
    deletePhone db session now timeout = unauthorizedOut db ∧
    patchIdentities db connectors social session now timeout cid = unauthorizedOut db ∧
    deleteIdentityRoute db session target = unauthorizedOut db ∧
    AppError.unauthorized.status = 401 ∧
    AppError.unauthorized.code = "auth.unauthorized" := by
  have hcs : checkSessionHealth session now timeout = none := by
    rw [checkSessionHealth, h]
  refine ⟨?_, ?_, ?_, ?_, ?_, ?_, ?_, ?_, ?_, ?_, rfl, rfl⟩ <;>
    simp only [getSessionProfile, patchSessionProfile, patchUsername, patchPassword,
      patchEmail, deleteEmail, patchPhone, deletePhone, patchIdentities,
      deleteIdentityRoute, h, hcs]

/-- Witness for C8: with an unauthenticated session, the read and a
representative mutation both fail unauthorized without touching the
store. -/
theorem c8_unauthenticated_rejected_witness :
    getSessionProfile exDb noSession = unauthorizedOut exDb ∧
    patchEmail exDb noSession 0 10 "z@z.io" = unauthorizedOut exDb := by
  have h := c8_unauthenticated_rejected exDb noSession 0 10 0 {} "u" "p" "z@z.io" "1" "c" "t"
    [] none rfl
  exact ⟨h.1, h.2.2.2.2.1⟩

/-- Claim C7: on a successful identity-linking request the stored
identities map equals the previous map with the connector target bound to
the freshly fetched social user info, every other target unchanged; if
the social exchange errors, the request fails and the state is
unchanged. -/
theorem c7_identity_link (db : Db) (connectors : List Connector) (session : Session)
    (now timeout : Nat) (cid uid : String) (c : Connector) (u : User)
    (hh : checkSessionHealth session now timeout = some uid)
    (hc : getLogtoConnectorById connectors cid = some c)
    (hfind : findUser db.users uid = some u) :
    (patchIdentities db connectors none session now timeout cid =
      errOut db .upstreamSocialError [])
  ∧ (∀ info : SocialUserInfo,
      (patchIdentities db connectors (some info) session now timeout cid).result = .ok 204
    ∧ ∃ u2, findUser
          (patchIdentities db connectors (some info) session now timeout cid).db.users uid =
          some u2
        ∧ getKey u2.identities c.target = some { userId := info.id, details := info }
        ∧ ∀ t, t ≠ c.target → getKey u2.identities t = getKey u.identities t) := by
  constructor
  · simp [patchIdentities, hh, hc]
  · intro info
    have hupd : updateUserById db.users uid
        { identities := some (setKey u.identities c.target
            { userId := info.id, details := info }) } .merge =
        some (applyUserUpdate .merge u
          { identities := some (setKey u.identities c.target
              { userId := info.id, details := info }) },
          updateStore db.users uid (fun _ => applyUserUpdate .merge u
            { identities := some (setKey u.identities c.target
                { userId := info.id, details := info }) })) := by
      rw [updateUserById, hfind]
      rfl
    have hident : (applyUserUpdate .merge u
        { identities := some (setKey u.identities c.target
            { userId := info.id, details := info }) }).identities =
        mergeObj u.identities (setKey u.identities c.target
          { userId := info.id, details := info }) := rfl
    refine ⟨?_, applyUserUpdate .merge u
      { identities := some (setKey u.identities c.target
          { userId := info.id, details := info }) }, ?_, ?_, ?_⟩
    · simp [patchIdentities, hh, hc, hfind, hupd]
    · have hfu := findUser_after_update hupd
      simp only [patchIdentities, hh, hc, hfind, hupd]
      exact hfu
    · rw [hident]
      exact getKey_mergeObj_of_some (getKey_setKey_self u.identities c.target _)
    · intro t ht
      rw [hident]
      cases hg : getKey (setKey u.identities c.target
          { userId := info.id, details := info }) t with
      | none =>
        rw [getKey_mergeObj_of_none hg]
      | some v =>
        rw [getKey_mergeObj_of_some hg, ← getKey_setKey_ne u.identities _ ht, hg]

/-- Witness for C7: linking through connector c1 with target google; the
failed exchange leaves the state unchanged and the successful one
commits. -/
theorem c7_identity_link_witness :
    patchIdentities exDb [{ id := "c1", target := "google" }] none aliceSession 0 10 "c1" =
      errOut exDb .upstreamSocialError [] ∧
    (patchIdentities exDb [{ id := "c1", target := "google" }]
      (some { id := "s1", rawData := [] }) aliceSession 0 10 "c1").result = .ok 204 := by
  have h := c7_identity_link exDb [{ id := "c1", target := "google" }] aliceSession 0 10 "c1"
    "alice" { id := "c1", target := "google" } alice (by decide) (by decide) (by decide)
  exact ⟨h.1, (h.2 { id := "s1", rawData := [] }).1⟩

/-- Claim C9: a PATCH /profile request from a caller without the address
scope has the address field stripped from the submitted profile before
the write: the stored address is unchanged while the other submitted
profile fields are applied. -/
theorem c9_address_stripped (db : Db) (auth : AuthContext) (body : PatchProfileBody)
    (u : User) (p : List (String × String))
    (hscope : auth.scopes.contains UserScopeProfile = true)
    (haddr : auth.scopes.contains UserScopeAddress = false)
    (hcol : usernamePass db.users auth.id body.username = true)
    (hfind : findUser db.users auth.id = some u)
    (hp : body.profile = some p) :
    (patchProfile db auth body).result = .ok 200 ∧
    ∃ u2, findUser (patchProfile db auth body).db.users auth.id = some u2
      ∧ getKey u2.profile "address" = getKey u.profile "address"
      ∧ ∀ k v, k ≠ "address" → getKey p k = some v → getKey u2.profile k = some v := by
  have hupd : updateUserById db.users auth.id (buildPatchProfileUpdate auth.scopes body)
      .merge = some (applyUserUpdate .merge u (buildPatchProfileUpdate auth.scopes body),
        updateStore db.users auth.id (fun _ =>
          applyUserUpdate .merge u (buildPatchProfileUpdate auth.scopes body))) := by
    rw [updateUserById, hfind]
    rfl
  have haddr2 : UserScopeAddress ∉ auth.scopes := by simpa using haddr
  have hscope2 : UserScopeProfile ∈ auth.scopes := by simpa using hscope
  have hprof : (applyUserUpdate .merge u (buildPatchProfileUpdate auth.scopes body)).profile =
      mergeObj u.profile (eraseKey p "address") := by
    simp [applyUserUpdate, buildPatchProfileUpdate, applyJsonb, hp, haddr2]
  refine ⟨?_, applyUserUpdate .merge u (buildPatchProfileUpdate auth.scopes body), ?_, ?_, ?_⟩
  · simp [patchProfile, hscope2, hcol, hupd]
  · have hfu := findUser_after_update hupd
    simp only [patchProfile, hscope, hcol, hupd, Bool.not_true, Bool.false_eq_true, if_false]
    exact hfu
  · rw [hprof, getKey_mergeObj_of_none (getKey_eraseKey_self p "address")]
  · intro k v hk hv
    rw [hprof]
    exact getKey_mergeObj_of_some (by rw [getKey_eraseKey_ne p hk, hv])

/-- Witness for C9: Alice holds only the profile scope; patching with a
profile that has a gender field leaves her stored address untouched while
gender is applied. -/
theorem c9_address_stripped_witness :
    (patchProfile exDb aliceAuth { profile := some [("gender", "y")] }).result = .ok 200 ∧
    ∃ u2, findUser (patchProfile exDb aliceAuth
        { profile := some [("gender", "y")] }).db.users "alice" = some u2
      ∧ getKey u2.profile "address" = getKey alice.profile "address"
      ∧ ∀ k v, k ≠ "address" → getKey [("gender", "y")] k = some v →
          getKey u2.profile k = some v :=
  c9_address_stripped exDb aliceAuth { profile := some [("gender", "y")] } alice
    [("gender", "y")] (by decide) (by decide) (by decide) (by decide) rfl

/-- A consumed verification record, for the amended C1 witness. -/
def recordUsed : VerificationRecord :=
  { id := "r3", userId := "alice", target := none, consumed := true, expiresAt := 100 }

def exDb2 : Db := { users := [alice, bob, carol], records := [record1, recordCarol, recordUsed] }

/-- Claim C1 counterexample: the password mutation succeeds using record
r1, yet r1 is still stored unconsumed afterwards, and a second mutation
reusing the very same record id succeeds instead of failing validation;
so a record is not consumed as part of the successful commit. -/
theorem c1_consume_counterexample :
    (postProfilePassword exDb aliceAuth 5 1 "pw2" "r1").result = .ok 204 ∧
    (postProfilePassword exDb aliceAuth 5 1 "pw2" "r1").db.records = exDb.records ∧
    ((postProfilePassword exDb aliceAuth 5 1 "pw2" "r1").db.records.find?
      (fun r => r.id == "r1")).map VerificationRecord.consumed = some false ∧
    (postProfilePassword (postProfilePassword exDb aliceAuth 5 1 "pw2" "r1").db
      aliceAuth 6 2 "pw3" "r1").result = .ok 204 := by decide

/-- Claim C1 amended: the handler validates the record before the commit,
and a record already marked consumed fails validation; but a successful
mutation does not consume the record it used — the verification record
store is passed through unchanged by every run of the handler — so a
subsequent mutation reusing a still-unconsumed, unexpired record
succeeds. -/
theorem c1_consume_amended :
    (∀ db auth now salt pw rid,
      (postProfilePassword db auth now salt pw rid).db.records = db.records)
  ∧ (∀ db auth now salt pw rid r,
      buildUserVerificationRecordById db.records auth.id rid = some r →
      r.consumed = true →
      postProfilePassword db auth now salt pw rid =
        errOut db .verificationRecordNotFound []) := by
  constructor
  · intro db auth now salt pw rid
    rw [postProfilePassword]
    split
    · rfl
    · split
      · rfl
      · split
        · rfl
        · rfl
  · intro db auth now salt pw rid r hb hc
    have hv : recordIsValid r now none = false := by
      rw [recordIsValid, hc]
      rfl
    simp [postProfilePassword, hb, hv]

/-- Witness for the amended C1: a run on record r1 leaves the record store
unchanged, and a run on the already-consumed record r3 fails
validation. -/
theorem c1_consume_amended_witness :
    (postProfilePassword exDb aliceAuth 5 1 "pw2" "r1").db.records = exDb.records ∧
    postProfilePassword exDb2 aliceAuth 5 1 "pw9" "r3" =
      errOut exDb2 .verificationRecordNotFound [] :=
  ⟨c1_consume_amended.1 exDb aliceAuth 5 1 "pw2" "r1",
   c1_consume_amended.2 exDb2 aliceAuth 5 1 "pw9" "r3" recordUsed (by decide) (by decide)⟩

/-- A state holding no verification records at all, for the C2
counterexample. -/
def noRecordsDb : Db := { users := [alice, bob, carol], records := [] }

/-- Claim C2 counterexample: with not a single verification record in the
system, the session email route still commits a change of the primary
email to a fresh value; the commit is reached with no verification record
resolved, so no record scoped to the target value was required. -/
theorem c2_target_scope_counterexample :
    noRecordsDb.records = [] ∧
    (patchEmail noRecordsDb aliceSession 0 10 "new@x.io").result = .ok 204 ∧
    (findUser (patchEmail noRecordsDb aliceSession 0 10 "new@x.io").db.users "alice").map
      User.primaryEmail = some (some "new@x.io") := by decide

/-- Claim C2 amended: sensitive-field mutations are gated before any
write, but not by a record scoped to the target value: the POST password
route requires a record resolved for the subject and valid (unconsumed
and unexpired), failing before any write otherwise; the session routes
for password, email, phone and identities require a recently verified
session (checkSessionHealth), failing before any write otherwise
(unauthorizedOut and errOut fix the db and an empty access list). -/
theorem c2_verification_gate_amended :
    (∀ db auth now salt pw rid,
      buildUserVerificationRecordById db.records auth.id rid = none →
      postProfilePassword db auth now salt pw rid =
        errOut db .verificationRecordNotFound [])
  ∧ (∀ db auth now salt pw rid r,
      buildUserVerificationRecordById db.records auth.id rid = some r →
      recordIsValid r now none = false →
      postProfilePassword db auth now salt pw rid =
        errOut db .verificationRecordNotFound [])
  ∧ (∀ db session now timeout salt pw em ph cid connectors social,
      checkSessionHealth session now timeout = none →
      patchPassword db session now timeout salt pw = unauthorizedOut db ∧
      patchEmail db session now timeout em = unauthorizedOut db ∧
      patchPhone db session now timeout ph = unauthorizedOut db ∧
      patchIdentities db connectors social session now timeout cid = unauthorizedOut db) := by
  refine ⟨?_, ?_, ?_⟩
  · intro db auth now salt pw rid hb
    simp [postProfilePassword, hb]
  · intro db auth now salt pw rid r hb hv
    simp [postProfilePassword, hb, hv]
  · intro db session now timeout salt pw em ph cid connectors social hcs
    refine ⟨?_, ?_, ?_, ?_⟩ <;>
      simp only [patchPassword, patchEmail, patchPhone, patchIdentities, hcs]

/-- Witness for the amended C2: an unresolvable record id fails the POST
password route before any write, and a stale session fails the email
route before any write. -/
theorem c2_verification_gate_amended_witness :
    postProfilePassword exDb aliceAuth 5 1 "pw2" "zzz" =
      errOut exDb .verificationRecordNotFound [] ∧
    patchEmail exDb aliceSession 100 10 "q@x.io" = unauthorizedOut exDb := by
  have h2 := c2_verification_gate_amended.2.2 exDb aliceSession 100 10 0 "pw" "q@x.io" "ph"
    "c" [] none (by decide)
  exact ⟨c2_verification_gate_amended.1 exDb aliceAuth 5 1 "pw2" "zzz" (by decide), h2.2.1⟩

/-- Claim C4 counterexample: Carol's stored hash verifies against the
submitted password (it is her current password), and she presents a valid
verification record, yet the POST password route succeeds with 204 and
overwrites the stored hash instead of failing user.same_password. -/
theorem c4_same_password_counterexample :
    carol.passwordEncrypted = some { password := "pw1", salt := 3 } ∧
    argon2Verify "pw1" { password := "pw1", salt := 3 } = true ∧
    (postProfilePassword exDb carolAuth 5 7 "pw1" "r2").result = .ok 204 ∧
    (findUser (postProfilePassword exDb carolAuth 5 7 "pw1" "r2").db.users "carol").map
      User.passwordEncrypted = some (some { password := "pw1", salt := 7 }) := by decide

/-- Claim C4 amended: the session password route rejects a new password
that verifies against the stored hash with user.same_password (422),
leaving the state unchanged; the verification-gated POST password route
performs no same-password check and overwrites the stored hash
unconditionally on a valid record. -/
theorem c4_same_password_amended :
    (∀ db session now timeout salt pw uid u h,
      checkSessionHealth session now timeout = some uid →
      findUser db.users uid = some u →
      u.passwordEncrypted = some h →
      argon2Verify pw h = true →
      patchPassword db session now timeout salt pw = errOut db .samePassword [.readUser uid] ∧
      AppError.samePassword.status = 422 ∧
      AppError.samePassword.code = "user.same_password")
  ∧ (∀ db auth now salt pw rid r u,
      buildUserVerificationRecordById db.records auth.id rid = some r →
      recordIsValid r now none = true →
      findUser db.users auth.id = some u →
      (postProfilePassword db auth now salt pw rid).result = .ok 204 ∧
      ∃ u2, findUser (postProfilePassword db auth now salt pw rid).db.users auth.id = some u2
        ∧ u2.passwordEncrypted = some { password := pw, salt := salt }) := by
  constructor
  · intro db session now timeout salt pw uid u h hh hfind hpe hver
    refine ⟨?_, rfl, rfl⟩
    simp [patchPassword, hh, hfind, hpe, hver]
  · intro db auth now salt pw rid r u hb hv hfind
    have hupd : updateUserById db.users auth.id
        { passwordEncrypted := some (encryptUserPassword salt pw).passwordEncrypted
          passwordEncryptionMethod :=
            some (encryptUserPassword salt pw).passwordEncryptionMethod } .merge =
        some (applyUserUpdate .merge u
          { passwordEncrypted := some (encryptUserPassword salt pw).passwordEncrypted
            passwordEncryptionMethod :=
              some (encryptUserPassword salt pw).passwordEncryptionMethod },
          updateStore db.users auth.id (fun _ => applyUserUpdate .merge u
            { passwordEncrypted := some (encryptUserPassword salt pw).passwordEncrypted
              passwordEncryptionMethod :=
                some (encryptUserPassword salt pw).passwordEncryptionMethod })) := by
      rw [updateUserById, hfind]
      rfl
    refine ⟨?_, applyUserUpdate .merge u
      { passwordEncrypted := some (encryptUserPassword salt pw).passwordEncrypted
        passwordEncryptionMethod :=
          some (encryptUserPassword salt pw).passwordEncryptionMethod }, ?_, rfl⟩
    · simp [postProfilePassword, hb, hv, hupd]
    · have hfu := findUser_after_update hupd
      simp only [postProfilePassword, hb, hv, Bool.not_true, Bool.false_eq_true, if_false, hupd]
      exact hfu

/-- Witness for the amended C4: Carol's same-password change through the
session route fails with 422 and no state change; Alice's POST password
change with a valid record succeeds and stores the fresh hash. -/
theorem c4_same_password_amended_witness :
    patchPassword exDb carolSession 0 10 5 "pw1" =
      errOut exDb .samePassword [.readUser "carol"] ∧
    (postProfilePassword exDb aliceAuth 5 9 "pwX" "r1").result = .ok 204 := by
  have h1 := c4_same_password_amended.1 exDb carolSession 0 10 5 "pw1" "carol" carol
    { password := "pw1", salt := 3 } (by decide) (by decide) (by decide) (by decide)
  have h2 := c4_same_password_amended.2 exDb aliceAuth 5 9 "pwX" "r1" record1 alice
    (by decide) (by decide) (by decide)
  exact ⟨h1.1, h2.1⟩

/-- Claim C5 counterexample: the session profile patch succeeds and
mutates the stored record (the name changes), yet it emits no event at
all, contradicting that every successful mutating call emits exactly one
User.Data.Updated event. -/
theorem c5_event_counterexample :
    (patchSessionProfile exDb aliceSession { name := some (some "New") }).result = .ok 204 ∧
    (findUser (patchSessionProfile exDb aliceSession
      { name := some (some "New") }).db.users "alice").map User.name =
      some (some "New") ∧
    (patchSessionProfile exDb aliceSession { name := some (some "New") }).events = [] := by
  decide

/-- Claim C5 amended: the two mutating routes of the new profile router
emit exactly one User.Data.Updated event carrying the post-mutation user
record on success; every route of the session profile router emits no
event at all. -/
theorem c5_events_amended :
    (∀ db auth body, (patchProfile db auth body).result = .ok 200 →
      ∃ u2, (patchProfile db auth body).events = [(dataHookUserUpdated, u2)] ∧
        findUser (patchProfile db auth body).db.users auth.id = some u2)
  ∧ (∀ db auth now salt pw rid,
      (postProfilePassword db auth now salt pw rid).result = .ok 204 →
      ∃ u2, (postProfilePassword db auth now salt pw rid).events = [(dataHookUserUpdated, u2)] ∧
        findUser (postProfilePassword db auth now salt pw rid).db.users auth.id = some u2)
  ∧ (∀ db auth, (getProfile db auth).events = [])
  ∧ (∀ db session, (getSessionProfile db session).events = [])
  ∧ (∀ db session body, (patchSessionProfile db session body).events = [])
  ∧ (∀ db session now timeout un, (patchUsername db session now timeout un).events = [])
  ∧ (∀ db session now timeout salt pw,
      (patchPassword db session now timeout salt pw).events = [])
  ∧ (∀ db session now timeout em, (patchEmail db session now timeout em).events = [])
  ∧ (∀ db session now timeout, (deleteEmail db session now timeout).events = [])
  ∧ (∀ db session now timeout ph, (patchPhone db session now timeout ph).events = [])
  ∧ (∀ db session now timeout, (deletePhone db session now timeout).events = [])
  ∧ (∀ db connectors social session now timeout cid,
      (patchIdentities db connectors social session now timeout cid).events = [])
  ∧ (∀ db session target, (deleteIdentityRoute db session target).events = []) := by
  refine ⟨?_, ?_, ?_, ?_, ?_, ?_, ?_, ?_, ?_, ?_, ?_, ?_, ?_⟩
  · intro db auth body
    cases hsc : auth.scopes.contains UserScopeProfile with
    | false =>
      intro hok
      have hsc2 : UserScopeProfile ∉ auth.scopes := by simpa using hsc
      simp [patchProfile, hsc2, unauthorizedOut, errOut] at hok
    | true =>
      have hsc2 : UserScopeProfile ∈ auth.scopes := by simpa using hsc
      cases hcp : usernamePass db.users auth.id body.username with
      | false =>
        intro hok
        simp [patchProfile, hsc2, hcp, errOut] at hok
      | true =>
        cases hupd : updateUserById db.users auth.id
            (buildPatchProfileUpdate auth.scopes body) .merge with
        | none =>
          intro hok
          simp [patchProfile, hsc2, hcp, hupd, errOut] at hok
        | some pr =>
          obtain ⟨u2, s2⟩ := pr
          intro hok
          refine ⟨u2, ?_, ?_⟩
          · simp [patchProfile, hsc2, hcp, hupd]
          · have hfu := findUser_after_update hupd
            simp [patchProfile, hsc2, hcp, hupd]
            exact hfu
  · intro db auth now salt pw rid
    cases hb : buildUserVerificationRecordById db.records auth.id rid with
    | none =>
      intro hok
      simp [postProfilePassword, hb, errOut] at hok
    | some r =>
      cases hv : recordIsValid r now none with
      | false =>
        intro hok
        simp [postProfilePassword, hb, hv, errOut] at hok
      | true =>
        cases hupd : updateUserById db.users auth.id
            { passwordEncrypted := some (encryptUserPassword salt pw).passwordEncrypted
              passwordEncryptionMethod :=
                some (encryptUserPassword salt pw).passwordEncryptionMethod } .merge with
        | none =>
          intro hok
          simp [postProfilePassword, hb, hv, hupd, errOut] at hok
        | some pr =>
          obtain ⟨u2, s2⟩ := pr
          intro hok
          refine ⟨u2, ?_, ?_⟩
          · simp [postProfilePassword, hb, hv, hupd]
          · have hfu := findUser_after_update hupd
            simp [postProfilePassword, hb, hv, hupd]
            exact hfu
  · intro db auth
    rfl
  · intro db session
    rw [getSessionProfile]
    split
    · rfl
    · split
      · rfl
      · rfl
  · intro db session body
    rw [patchSessionProfile]
    split
    · rfl
    · split
      · rfl
      · rfl
  · intro db session now timeout un
    rw [patchUsername]
    split
    · rfl
    · split
      · rfl
      · split
        · rfl
        · rfl
  · intro db session now timeout salt pw
    rw [patchPassword]
    split
    · rfl
    · split
      · rfl
      · split
        · rfl
        · split
          · rfl
          · rfl
  · intro db session now timeout em
    rw [patchEmail]
    split
    · rfl
    · split
      · rfl
      · split
        · rfl
        · rfl
  · intro db session now timeout
    rw [deleteEmail]
    split
    · rfl
    · split
      · rfl
      · split
        · rfl
        · split
          · rfl
          · rfl
  · intro db session now timeout ph
    rw [patchPhone]
    split
    · rfl
    · split
      · rfl
      · split
        · rfl
        · rfl
  · intro db session now timeout
    rw [deletePhone]
    split
    · rfl
    · split
      · rfl
      · split
        · rfl
        · split
          · rfl
          · rfl
  · intro db connectors social session now timeout cid
    rw [patchIdentities]
    split
    · rfl
    · split
      · rfl
      · split
        · rfl
        · split
          · rfl
          · split
            · rfl
            · rfl
  · intro db session target
    rw [deleteIdentityRoute]
    split
    · rfl
    · split
      · rfl
      · split
        · rfl
        · rfl

/-- Witness for the amended C5: a successful PATCH /profile emits exactly
the one event with the stored record, and a successful session patch
emits none. -/
theorem c5_events_amended_witness :
    (∃ u2, (patchProfile exDb aliceAuth { name := some (some "A2") }).events =
        [(dataHookUserUpdated, u2)] ∧
      findUser (patchProfile exDb aliceAuth
        { name := some (some "A2") }).db.users "alice" = some u2) ∧
    (patchSessionProfile exDb aliceSession { name := some (some "B") }).events = [] :=
  ⟨c5_events_amended.1 exDb aliceAuth { name := some (some "A2") } (by decide),
   c5_events_amended.2.2.2.2.1 exDb aliceSession { name := some (some "B") }⟩

/-- Claim C3 counterexample: Alice already owns the email a@x.io herself;
submitting that same value through the session email route fails with
IdentifierExists, because this route runs the collision check without
excluding the acting subject — contradicting that a match owned by the
acting subject does not fail. -/
theorem c3_self_collision_counterexample :
    alice.primaryEmail = some "a@x.io" ∧
    checkSessionHealth aliceSession 0 10 = some "alice" ∧
    patchEmail exDb aliceSession 0 10 "a@x.io" = errOut exDb .identifierExists [.readStore] := by
  decide

/-- Claim C3 amended: the collision check precedes every write of a
unique identifier, and a stored match owned by a subject other than the
acting subject always fails with IdentifierExists before the write — in
PATCH /profile (username), the session username route, the session email
route and the session phone route alike — so a successful write through
any of these routes leaves no other user holding the identifier. The
acting subject is excluded only in PATCH /profile and the session
username route, where a value owned by no other subject passes; the
session email and phone routes pass no exclusion, so a match owned by
the acting subject themselves also fails. -/
theorem c3_collision_amended :
    (∀ db auth (body : PatchProfileBody) v un,
      auth.scopes.contains UserScopeProfile = true →
      body.username = some un → v ∈ db.users → (v.id == auth.id) = false →
      v.username = some un →
      patchProfile db auth body = errOut db .identifierExists [.readStore])
  ∧ (∀ db auth (body : PatchProfileBody) un u,
      auth.scopes.contains UserScopeProfile = true →
      body.username = some un →
      findUser db.users auth.id = some u →
      (∀ v, v ∈ db.users → (v.id == auth.id) = false → v.username ≠ some un) →
      (patchProfile db auth body).result = .ok 200)
  ∧ (∀ db session now timeout un uid v,
      checkSessionHealth session now timeout = some uid →
      v ∈ db.users → (v.id == uid) = false → v.username = some un →
      patchUsername db session now timeout un = errOut db .identifierExists [.readStore])
  ∧ (∀ db session now timeout un uid u,
      checkSessionHealth session now timeout = some uid →
      findUser db.users uid = some u →
      (∀ v, v ∈ db.users → (v.id == uid) = false → v.username ≠ some un) →
      (patchUsername db session now timeout un).result = .ok 200)
  ∧ (∀ db session now timeout em uid v,
      checkSessionHealth session now timeout = some uid →
      v ∈ db.users → v.primaryEmail = some em →
      patchEmail db session now timeout em = errOut db .identifierExists [.readStore])
  ∧ (∀ db session now timeout ph uid v,
      checkSessionHealth session now timeout = some uid →
      v ∈ db.users → v.primaryPhone = some ph →
      patchPhone db session now timeout ph = errOut db .identifierExists [.readStore])
  ∧ (∀ db auth (body : PatchProfileBody) un,
      body.username = some un →
      (patchProfile db auth body).result = .ok 200 →
      ∀ v, v ∈ (patchProfile db auth body).db.users → (v.id == auth.id) = false →
        v.username ≠ some un)
  ∧ (∀ db session now timeout un uid,
      checkSessionHealth session now timeout = some uid →
      (patchUsername db session now timeout un).result = .ok 200 →
      ∀ v, v ∈ (patchUsername db session now timeout un).db.users → (v.id == uid) = false →
        v.username ≠ some un)
  ∧ (∀ db session now timeout em uid,
      checkSessionHealth session now timeout = some uid →
      (patchEmail db session now timeout em).result = .ok 204 →
      ∀ v, v ∈ (patchEmail db session now timeout em).db.users → (v.id == uid) = false →
        v.primaryEmail ≠ some em)
  ∧ (∀ db session now timeout ph uid,
      checkSessionHealth session now timeout = some uid →
      (patchPhone db session now timeout ph).result = .ok 204 →
      ∀ v, v ∈ (patchPhone db session now timeout ph).db.users → (v.id == uid) = false →
        v.primaryPhone ≠ some ph) := by
  refine ⟨?_, ?_, ?_, ?_, ?_, ?_, ?_, ?_, ?_, ?_⟩
  · intro db auth body v un hsc hbu hv hvid hvun
    have hsc2 : UserScopeProfile ∈ auth.scopes := by simpa using hsc
    have hown : ownsCandidate { username := some un } v = true := by
      simp [ownsCandidate, hvun]
    have hex : isExcluded (some auth.id) v = false := by
      simpa [isExcluded] using hvid
    have hfail : checkIdentifierCollision db.users { username := some un } (some auth.id) =
        false := collision_fails_of_owner hv hex hown
    have hcp : usernamePass db.users auth.id body.username = false := by
      rw [hbu, usernamePass, hfail]
    have hacc : usernameAccesses body.username = [StoreAccess.readStore] := by
      rw [hbu, usernameAccesses]
    simp [patchProfile, hsc2, hcp, hacc, errOut]
  · intro db auth body un u hsc hbu hfind hother
    have hsc2 : UserScopeProfile ∈ auth.scopes := by simpa using hsc
    have hcol : checkIdentifierCollision db.users { username := some un } (some auth.id) =
        true := by
      apply collision_pass_intro
      intro v hv hex
      have hne := hother v hv (by simpa [isExcluded] using hex)
      simp [ownsCandidate]
      exact hne
    have hcp : usernamePass db.users auth.id body.username = true := by
      rw [hbu]
      simpa [usernamePass] using hcol
    have hupd : updateUserById db.users auth.id (buildPatchProfileUpdate auth.scopes body)
        .merge = some (applyUserUpdate .merge u (buildPatchProfileUpdate auth.scopes body),
          updateStore db.users auth.id (fun _ =>
            applyUserUpdate .merge u (buildPatchProfileUpdate auth.scopes body))) := by
      rw [updateUserById, hfind]
      rfl
    simp [patchProfile, hsc2, hcp, hupd]
  · intro db session now timeout un uid v hh hv hvid hvun
    have hown : ownsCandidate { username := some un } v = true := by
      simp [ownsCandidate, hvun]
    have hex : isExcluded (some uid) v = false := by
      simpa [isExcluded] using hvid
    have hfail : checkIdentifierCollision db.users { username := some un } (some uid) =
        false := collision_fails_of_owner hv hex hown
    have hfailS : checkSignUpIdentifierCollision db.users { username := some un } (some uid) =
        false := by
      rw [checkSignUpIdentifierCollision, hfail]
    simp [patchUsername, hh, hfailS, errOut]
  · intro db session now timeout un uid u hh hfind hother
    have hcol : checkIdentifierCollision db.users { username := some un } (some uid) = true := by
      apply collision_pass_intro
      intro v hv hex
      have hne := hother v hv (by simpa [isExcluded] using hex)
      simp [ownsCandidate]
      exact hne
    have hcolS : checkSignUpIdentifierCollision db.users { username := some un } (some uid) =
        true := by
      rw [checkSignUpIdentifierCollision, hcol]
    have hupd : updateUserById db.users uid { username := some (some un) } .replace =
        some (applyUserUpdate .replace u { username := some (some un) },
          updateStore db.users uid (fun _ =>
            applyUserUpdate .replace u { username := some (some un) })) := by
      rw [updateUserById, hfind]
      rfl
    simp [patchUsername, hh, hcolS, hupd]
  · intro db session now timeout em uid v hh hv hvem
    have hown : ownsCandidate { primaryEmail := some em } v = true := by
      simp [ownsCandidate, hvem]
    have hfail : checkIdentifierCollision db.users { primaryEmail := some em } none = false :=
      collision_fails_of_owner hv rfl hown
    have hfailS : checkSignUpIdentifierCollision db.users { primaryEmail := some em } none =
        false := by
      rw [checkSignUpIdentifierCollision, hfail]
    simp [patchEmail, hh, hfailS, errOut]
  · intro db session now timeout ph uid v hh hv hvph
    have hown : ownsCandidate { primaryPhone := some ph } v = true := by
      simp [ownsCandidate, hvph]
    have hfail : checkIdentifierCollision db.users { primaryPhone := some ph } none = false :=
      collision_fails_of_owner hv rfl hown
    have hfailS : checkSignUpIdentifierCollision db.users { primaryPhone := some ph } none =
        false := by
      rw [checkSignUpIdentifierCollision, hfail]
    simp [patchPhone, hh, hfailS, errOut]
  · intro db auth body un hbu hsucc v hv hvid
    cases hsc : auth.scopes.contains UserScopeProfile with
    | false =>
      have hsc2 : UserScopeProfile ∉ auth.scopes := by simpa using hsc
      have hres : (patchProfile db auth body).result = .err .unauthorized := by
        simp [patchProfile, hsc2, unauthorizedOut, errOut]
      rw [hsucc] at hres
      exact absurd hres (by decide)
    | true =>
      have hsc2 : UserScopeProfile ∈ auth.scopes := by simpa using hsc
      cases hcp : usernamePass db.users auth.id body.username with
      | false =>
        have hres : (patchProfile db auth body).result = .err .identifierExists := by
          simp [patchProfile, hsc2, hcp, errOut]
        rw [hsucc] at hres
        exact absurd hres (by decide)
      | true =>
        have hcol2 : checkIdentifierCollision db.users { username := some un }
            (some auth.id) = true := by
          rw [hbu] at hcp
          simpa [usernamePass] using hcp
        cases hupd : updateUserById db.users auth.id
            (buildPatchProfileUpdate auth.scopes body) .merge with
        | none =>
          have hres : (patchProfile db auth body).result = .err .entityNotFound := by
            simp [patchProfile, hsc2, hcp, hupd, errOut]
          rw [hsucc] at hres
          exact absurd hres (by decide)
        | some pr =>
          obtain ⟨u2, s2⟩ := pr
          rcases updateUserById_some hupd with ⟨u0, hf0, hu20, hs20⟩
          have hdbout : (patchProfile db auth body).db.users = s2 := by
            simp [patchProfile, hsc2, hcp, hupd]
          rw [hdbout, hs20] at hv
          rcases mem_updateStore hv with ⟨u1, hm1, hid1, heq1⟩ | ⟨hm2, hid2⟩
          · have hvid2 : v.id = auth.id := by
              rw [heq1]
              show (applyUserUpdate .merge u0
                (buildPatchProfileUpdate auth.scopes body)).id = auth.id
              rw [applyUserUpdate_id]
              exact findUser_eq_some_id hf0
            rw [hvid2] at hvid
            simp at hvid
          · have hex : isExcluded (some auth.id) v = false := by
              simpa [isExcluded] using hid2
            have hown := collision_pass_sound hcol2 v hm2 hex
            intro hcontra
            simp [ownsCandidate, hcontra] at hown
  · intro db session now timeout un uid hh hsucc v hv hvid
    cases hcol : checkSignUpIdentifierCollision db.users { username := some un }
        (some uid) with
    | false =>
      have hres : (patchUsername db session now timeout un).result =
          .err .identifierExists := by
        simp [patchUsername, hh, hcol, errOut]
      rw [hsucc] at hres
      exact absurd hres (by decide)
    | true =>
      cases hupd : updateUserById db.users uid { username := some (some un) } .replace with
      | none =>
        have hres : (patchUsername db session now timeout un).result =
            .err .entityNotFound := by
          simp [patchUsername, hh, hcol, hupd, errOut]
        rw [hsucc] at hres
        exact absurd hres (by decide)
      | some pr =>
        obtain ⟨u2, s2⟩ := pr
        rcases updateUserById_some hupd with ⟨u0, hf0, hu20, hs20⟩
        have hdbout : (patchUsername db session now timeout un).db.users = s2 := by
          simp [patchUsername, hh, hcol, hupd]
        rw [hdbout, hs20] at hv
        rcases mem_updateStore hv with ⟨u1, hm1, hid1, heq1⟩ | ⟨hm2, hid2⟩
        · have hvid2 : v.id = uid := by
            rw [heq1]
            show (applyUserUpdate .replace u0 { username := some (some un) }).id = uid
            rw [applyUserUpdate_id]
            exact findUser_eq_some_id hf0
          rw [hvid2] at hvid
          simp at hvid
        · have hcol2 : checkIdentifierCollision db.users { username := some un }
              (some uid) = true := by
            rw [checkSignUpIdentifierCollision] at hcol
            exact hcol
          have hex : isExcluded (some uid) v = false := by
            simpa [isExcluded] using hid2
          have hown := collision_pass_sound hcol2 v hm2 hex
          intro hcontra
          simp [ownsCandidate, hcontra] at hown
  · intro db session now timeout em uid hh hsucc v hv hvid
    cases hcol : checkSignUpIdentifierCollision db.users { primaryEmail := some em } none with
    | false =>
      have hres : (patchEmail db session now timeout em).result = .err .identifierExists := by
        simp [patchEmail, hh, hcol, errOut]
      rw [hsucc] at hres
      exact absurd hres (by decide)
    | true =>
      cases hupd : updateUserById db.users uid { primaryEmail := some (some em) } .merge with
      | none =>
        have hres : (patchEmail db session now timeout em).result = .err .entityNotFound := by
          simp [patchEmail, hh, hcol, hupd, errOut]
        rw [hsucc] at hres
        exact absurd hres (by decide)
      | some pr =>
        obtain ⟨u2, s2⟩ := pr
        rcases updateUserById_some hupd with ⟨u0, hf0, hu20, hs20⟩
        have hdbout : (patchEmail db session now timeout em).db.users = s2 := by
          simp [patchEmail, hh, hcol, hupd]
        rw [hdbout, hs20] at hv
        rcases mem_updateStore hv with ⟨u1, hm1, hid1, heq1⟩ | ⟨hm2, hid2⟩
        · have hvid2 : v.id = uid := by
            rw [heq1]
            show (applyUserUpdate .merge u0 { primaryEmail := some (some em) }).id = uid
            rw [applyUserUpdate_id]
            exact findUser_eq_some_id hf0
          rw [hvid2] at hvid
          simp at hvid
        · have hcol2 : checkIdentifierCollision db.users { primaryEmail := some em } none =
              true := by
            rw [checkSignUpIdentifierCollision] at hcol
            exact hcol
          have hown := collision_pass_sound hcol2 v hm2 rfl
          intro hcontra
          simp [ownsCandidate, hcontra] at hown
  · intro db session now timeout ph uid hh hsucc v hv hvid
    cases hcol : checkSignUpIdentifierCollision db.users { primaryPhone := some ph } none with
    | false =>
      have hres : (patchPhone db session now timeout ph).result = .err .identifierExists := by
        simp [patchPhone, hh, hcol, errOut]
      rw [hsucc] at hres
      exact absurd hres (by decide)
    | true =>
      cases hupd : updateUserById db.users uid { primaryPhone := some (some ph) } .merge with
      | none =>
        have hres : (patchPhone db session now timeout ph).result = .err .entityNotFound := by
          simp [patchPhone, hh, hcol, hupd, errOut]
        rw [hsucc] at hres
        exact absurd hres (by decide)
      | some pr =>
        obtain ⟨u2, s2⟩ := pr
        rcases updateUserById_some hupd with ⟨u0, hf0, hu20, hs20⟩
        have hdbout : (patchPhone db session now timeout ph).db.users = s2 := by
          simp [patchPhone, hh, hcol, hupd]
        rw [hdbout, hs20] at hv
        rcases mem_updateStore hv with ⟨u1, hm1, hid1, heq1⟩ | ⟨hm2, hid2⟩
        · have hvid2 : v.id = uid := by
            rw [heq1]
            show (applyUserUpdate .merge u0 { primaryPhone := some (some ph) }).id = uid
            rw [applyUserUpdate_id]
            exact findUser_eq_some_id hf0
          rw [hvid2] at hvid
          simp at hvid
        · have hcol2 : checkIdentifierCollision db.users { primaryPhone := some ph } none =
              true := by
            rw [checkSignUpIdentifierCollision] at hcol
            exact hcol
          have hown := collision_pass_sound hcol2 v hm2 rfl
          intro hcontra
          simp [ownsCandidate, hcontra] at hown

/-- Witness for the amended C3: Alice patching her username to Bob's
fails through the excluded check with another owner present, while a
fresh username passes it; Carol setting her email to Bob's fails through
the unexcluded check; Carol setting her phone to Alice's fails the same
way; and a healthy-session username change to an unowned value
succeeds. -/
theorem c3_collision_amended_witness :
    patchProfile exDb aliceAuth { username := some "bob" } =
      errOut exDb .identifierExists [.readStore] ∧
    (patchProfile exDb aliceAuth { username := some "alice2" }).result = .ok 200 ∧
    patchEmail exDb carolSession 0 10 "b@x.io" = errOut exDb .identifierExists [.readStore] ∧
    patchPhone exDb carolSession 0 10 "111" = errOut exDb .identifierExists [.readStore] ∧
    (patchUsername exDb carolSession 0 10 "newname").result = .ok 200 := by
  refine ⟨?_, ?_, ?_, ?_, ?_⟩
  · exact c3_collision_amended.1 exDb aliceAuth { username := some "bob" } bob "bob"
      (by decide) rfl (by decide) (by decide) (by decide)
  · exact c3_collision_amended.2.1 exDb aliceAuth { username := some "alice2" } "alice2" alice
      (by decide) rfl (by decide) (by decide)
  · exact c3_collision_amended.2.2.2.2.1 exDb carolSession 0 10 "b@x.io" "carol" bob
      (by decide) (by decide) (by decide)
  · exact c3_collision_amended.2.2.2.2.2.1 exDb carolSession 0 10 "111" "carol" alice
      (by decide) (by decide) (by decide)
  · exact c3_collision_amended.2.2.2.1 exDb carolSession 0 10 "newname" "carol" carol
      (by decide) (by decide) (by decide)

end Logto
